import Mathlib

/-!
Verification development for the trace propagation and deterministic
sampling engine of this repository (a sentry-python fork).

The tracing core (`sentry_sdk/tracing_utils.py` and the `continue_trace`
entry point) is not present in the source tree; only its test suites are.
The definitions below are therefore of two kinds:

* fixture tables translated directly from the test files
  (`tests/test_propagationcontext.py`, `tests/tracing/test_sample_rand.py`,
  `tests/tracing/test_sample_rand_propagation.py`), which are the only code
  in the tree exercising the core; and
* components modelled from the specification, marked by doc comments
  starting with `Modelled from the spec:`, for the parts of the engine
  whose implementation is absent from the tree.

Fractional sample values are modelled as exact rationals; identifiers and
wire headers as strings / character lists.
-/

/-- The sixteen lower-case hexadecimal digit characters (spec section 3:
trace and span ids are fixed-width lower-hex tokens). -/
def hexChars : List Char := "0123456789abcdef".toList

/-- A character is a lower-case hexadecimal digit. -/
def isHexChar (c : Char) : Bool := hexChars.contains c

/-- The hexadecimal digit character for a value below 16 (also used for
decimal digits, which are the first ten entries). -/
def hexChar (d : Nat) : Char := hexChars.getD d '0'

/-- Big-endian fixed-width digit expansion of `k` in base 16, `n` digits. -/
def natToHexList : Nat → Nat → List Char
  | 0, _ => []
  | n + 1, k => natToHexList n (k / 16) ++ [hexChar (k % 16)]

/-- A character list is a hex token of exactly `n` characters. -/
def isHexStr (cs : List Char) (n : Nat) : Bool :=
  (cs.length == n) && cs.all isHexChar

/-- Modelled from the spec: `IdentifierCodec.new_trace_id` generates a
random 128-bit value, lower-hex-encoded to exactly 32 characters
(section 4.1).  The process randomness source is made explicit as the
entropy parameter `e`. -/
def IdentifierCodec.new_trace_id (e : Nat) : String :=
  String.mk (natToHexList 32 (e % (2 ^ 128)))

/-- Modelled from the spec: `IdentifierCodec.new_span_id` generates a
random 64-bit value, lower-hex-encoded to exactly 16 characters
(section 4.1).  The process randomness source is made explicit as the
entropy parameter `e`. -/
def IdentifierCodec.new_span_id (e : Nat) : String :=
  String.mk (natToHexList 16 (e % (2 ^ 64)))

/-- Modelled from the spec: the `PropagationContext` aggregate
(section 4.4 and `tests/test_propagationcontext.py`): internal id caches
`_trace_id` and `_span_id` (None until first access or explicit set),
optional parent span id, optional parent sampling decision, and an
optional dynamic sampling context (a string-to-string mapping, modelled
as an association list). -/
structure PropagationContext where
  _trace_id : Option String
  _span_id : Option String
  parent_span_id : Option String
  parent_sampled : Option Bool
  dynamic_sampling_context : Option (List (String × String))
deriving DecidableEq

/-- The freshly constructed context `PropagationContext()`: both id caches
empty, no parent linkage, no dynamic sampling context. -/
def emptyCtx : PropagationContext :=
  { _trace_id := none, _span_id := none, parent_span_id := none,
    parent_sampled := none, dynamic_sampling_context := none }

/-- Modelled from the spec: the lazy `trace_id` property getter
(section 4.4): if the internal cache is unset, generate a new trace id
from the entropy source `e`, cache it and return it; otherwise return the
cached value. -/
def PropagationContext.trace_id (ctx : PropagationContext) (e : Nat) :
    String × PropagationContext :=
  match ctx._trace_id with
  | some t => (t, ctx)
  | none =>
    let t := IdentifierCodec.new_trace_id e
    (t, { ctx with _trace_id := some t })

/-- Modelled from the spec: the lazy `span_id` property getter
(section 4.4), mirror image of `PropagationContext.trace_id`. -/
def PropagationContext.span_id (ctx : PropagationContext) (e : Nat) :
    String × PropagationContext :=
  match ctx._span_id with
  | some s => (s, ctx)
  | none =>
    let s := IdentifierCodec.new_span_id e
    (s, { ctx with _span_id := some s })

/-- A value appearing in the mapping passed to
`PropagationContext.update`: either a string (for `trace_id`,
`parent_span_id` and unrecognized keys such as `foo`) or a boolean (for
`parent_sampled`). -/
inductive UVal where
  | str (v : String)
  | flag (v : Bool)
deriving DecidableEq

/-- The three keys `PropagationContext.update` recognizes (section 4.4). -/
def recognizedKeys : List String :=
  ["trace_id", "parent_span_id", "parent_sampled"]

/-- Modelled from the spec: `PropagationContext.update` (section 4.4):
for each recognized key present in the mapping, overwrite the matching
field (`trace_id` writes the internal cache directly); every other key is
silently ignored and never attached to the object. -/
def PropagationContext.update (ctx : PropagationContext)
    (data : List (String × UVal)) : PropagationContext :=
  data.foldl (fun c kv =>
    match kv with
    | ("trace_id", UVal.str v) => { c with _trace_id := some v }
    | ("parent_span_id", UVal.str v) => { c with parent_span_id := some v }
    | ("parent_sampled", UVal.flag v) => { c with parent_sampled := some v }
    | _ => c) ctx

/-- Modelled from the spec: `DeterministicRandom.derive` (section 4.2)
maps a trace id to a reproducible fractional value in `[0,1)`.  The spec
fixes the generator only as "a standard 53-bit-precision uniform
generator" seeded from the trace id, which does not pin a reproducible
algorithm; however the spec (section 8) and the test suite
(`tests/tracing/test_sample_rand.py`, `TEST_TRACE_ID_SAMPLE_RANDS`) pin
its exact value on the fixture trace ids, so the function is modelled by
that fixture table (0 elsewhere). -/
def DeterministicRandom.derive (trace_id : String) : ℚ :=
  if trace_id = "00000000000000000000000000000000" then
    8766381713144122 / 10000000000000000
  else if trace_id = "01234567012345670123456701234567" then
    6451742521664413 / 10000000000000000
  else if trace_id = "0123456789abcdef0123456789abcdef" then
    9338861957669223 / 10000000000000000
  else 0

/-- Modelled from the spec: `SamplingDecisionEngine.decide`
(section 4.6): a trace is sampled iff `sample_rand < sample_rate`. -/
def SamplingDecisionEngine.decide (sample_rand sample_rate : ℚ) : Bool :=
  if sample_rand < sample_rate then true else false

/-- Modelled from the spec: the recording decision for a root trace,
whose `sample_rand` is derived from the trace id (section 4.6 and
`tests/tracing/test_sample_rand.py::test_deterministic_sampled`). -/
def rootRecorded (trace_id : String) (sample_rate : ℚ) : Bool :=
  SamplingDecisionEngine.decide (DeterministicRandom.derive trace_id) sample_rate

/-- Modelled from the spec: the recording decision for a continued trace,
whose `sample_rand` is taken from the incoming baggage (section 4.6 and
`tests/tracing/test_sample_rand.py::test_transaction_uses_incoming_sample_rand`). -/
def continuedRecorded (sample_rand sample_rate : ℚ) : Bool :=
  SamplingDecisionEngine.decide sample_rand sample_rate

/-- Split a character list on a separator character (used for the baggage
header's comma/equals grammar, spec section 4.3). -/
def splitOnChar (sep : Char) : List Char → List (List Char)
  | [] => [[]]
  | c :: rest =>
    let r := splitOnChar sep rest
    if c == sep then [] :: r
    else
      match r with
      | [] => [[c]]
      | g :: gs => (c :: g) :: gs

/-- The numeric value of a decimal digit character, if it is one. -/
def digitVal (c : Char) : Option Nat :=
  if c.isDigit then some (c.toNat - 48) else none

/-- The natural number denoted by a non-empty string of decimal digits. -/
def digitsVal (cs : List Char) : Option Nat :=
  if cs.isEmpty then none
  else
    cs.foldl (fun acc c =>
      match acc, digitVal c with
      | some a, some d => some (10 * a + d)
      | _, _ => none) (some 0)

/-- Split a character list at the first dot, if any. -/
def splitDot : List Char → List Char → List Char × Option (List Char)
  | [], acc => (acc.reverse, none)
  | '.' :: rest, acc => (acc.reverse, some rest)
  | c :: rest, acc => splitDot rest (c :: acc)

/-- Parse a non-negative decimal numeral string (such as a `sample_rand`
or `sample_rate` baggage value) into numerator and fractional-digit
count; `none` when the string is not numeric (spec section 7: such
values are treated as absent). -/
def parseDecPair (s : String) : Option (Nat × Nat) :=
  match splitDot s.toList [] with
  | (ip, none) => (digitsVal ip).map (fun i => (i, 0))
  | (ip, some fp) =>
    match digitsVal ip, digitsVal fp with
    | some i, some f => some (i * 10 ^ fp.length + f, fp.length)
    | _, _ => none

/-- The exact rational value of a parsed decimal pair: the numerator over
ten to the number of fractional digits. -/
def decVal (p : Nat × Nat) : ℚ := (p.1 : ℚ) / 10 ^ p.2

/-- Strict order on parsed decimal pairs, by cross-multiplied integer
numerators (agrees with the order of their rational values, see
`pairLt_iff`). -/
def pairLt (p q : Nat × Nat) : Bool :=
  decide (p.1 * 10 ^ q.2 < q.1 * 10 ^ p.2)

/-- Non-strict order on parsed decimal pairs (see `pairLe_iff`). -/
def pairLe (p q : Nat × Nat) : Bool :=
  decide (p.1 * 10 ^ q.2 ≤ q.1 * 10 ^ p.2)

/-- Parse a non-negative decimal numeral string into its exact rational
value. -/
def parseDec (s : String) : Option ℚ := (parseDecPair s).map decVal

/-- Modelled from the spec: parsing of an incoming `sample_rate` baggage
string; a non-numeric string (for example the literal `"None"`) is
treated as "value absent" rather than raising (section 7). -/
def parseRate (s : String) : Option ℚ := parseDec s

/-- The number of digits after the decimal point in a formatted decimal
string (0 when there is no point). -/
def digitsAfterPoint (s : String) : Nat :=
  match splitDot s.toList [] with
  | (_, some fp) => fp.length
  | (_, none) => 0

/-- A formatted decimal string has a fractional part ending in a zero
digit, i.e. its trailing zeros were not trimmed. -/
def hasUntrimmedZero (s : String) : Bool :=
  decide (0 < digitsAfterPoint s) && (s.toList.getLast? == some '0')

/-- Big-endian fixed-width decimal digit expansion of `k`, `n` digits. -/
def decDigits : Nat → Nat → List Char
  | 0, _ => []
  | n + 1, k => decDigits n (k / 10) ++ [hexChar (k % 10)]

/-- Drop the trailing `'0'` characters of a digit list. -/
def trimZeros (cs : List Char) : List Char :=
  (cs.reverse.dropWhile (fun c => c == '0')).reverse

/-- Truncation of a rational in `[0,1)` to six decimal digits
(round-down), still as a rational. -/
def trunc6 (q : ℚ) : ℚ := ((Rat.floor (q * 1000000) : ℚ)) / 1000000

/-- Modelled from the spec: decimal formatting of a `sample_rand` value in
`[0,1)` with 6-digit fixed precision, trailing zeros trimmed
(sections 4.3 and 4.6). -/
def format6 (q : ℚ) : String :=
  let ds := trimZeros (decDigits 6 (Rat.floor (q * 1000000)).toNat)
  String.mk ('0' :: '.' :: (if ds.isEmpty then ['0'] else ds))

/-- Look a key up in an association-list mapping. -/
def lookupKey (dsc : List (String × String)) (k : String) : Option String :=
  (dsc.find? (fun kv => kv.1 == k)).map (fun kv => kv.2)

/-- Modelled from the spec: the remap of the derived value performed by
`SamplingDecisionEngine.fill_sample_rand` when `sample_rand` is missing
(section 4.6): with `r = DeterministicRandom.derive trace_id`, return `r`
unscaled when `parent_sampled` or `sample_rate` is absent, `r *
sample_rate` when the parent was sampled, and `sample_rate + r * (1 -
sample_rate)` when it was not. -/
def fillValue (trace_id : String) (parent_sampled : Option Bool)
    (sample_rate : Option ℚ) : ℚ :=
  let r := DeterministicRandom.derive trace_id
  match parent_sampled, sample_rate with
  | none, _ => r
  | _, none => r
  | some true, some rate => r * rate
  | some false, some rate => rate + r * (1 - rate)

/-- Modelled from the spec: `SamplingDecisionEngine.fill_sample_rand`
(section 4.6) on a dynamic sampling context: when `sample_rand` is
already present the context is returned unchanged (the value is never
overwritten); otherwise the remapped derived value is formatted and
inserted, reading `sample_rate` from the context (non-numeric treated as
absent). -/
def fill_sample_rand (trace_id : String) (parent_sampled : Option Bool)
    (dsc : List (String × String)) : List (String × String) :=
  match lookupKey dsc "sample_rand" with
  | some _ => dsc
  | none =>
    let rate := (lookupKey dsc "sample_rate").bind parseRate
    dsc ++ [("sample_rand", format6 (fillValue trace_id parent_sampled rate))]

/-- The numeric value of a lower- or upper-case hexadecimal digit
character, if it is one. -/
def hexVal (c : Char) : Option Nat :=
  if c.isDigit then some (c.toNat - 48)
  else if 'a' ≤ c ∧ c ≤ 'f' then some (c.toNat - 87)
  else if 'A' ≤ c ∧ c ≤ 'F' then some (c.toNat - 55)
  else none

/-- Modelled from the spec: URL-decoding of a baggage value
(section 4.3): a `%XX` escape denotes the character with code `XX`;
anything else passes through. -/
def percentDecode : List Char → List Char
  | [] => []
  | '%' :: a :: b :: rest =>
    match hexVal a, hexVal b with
    | some x, some y => Char.ofNat (16 * x + y) :: percentDecode rest
    | _, _ => '%' :: a :: b :: percentDecode rest
  | c :: rest => c :: percentDecode rest

/-- Modelled from the spec: `Baggage.parse` restricted to the
`sentry_items` mapping (section 4.3): the header is split on commas, each
entry is a `key=value` pair with the value URL-decoded, and entries whose
key carries the `sentry-` marker are stored with that seven-character
marker stripped.  (Third-party passthrough entries are not modelled; no
claim concerns them.) -/
def parseBaggage (s : String) : List (String × String) :=
  (splitOnChar ',' s.toList).filterMap (fun entry =>
    match splitOnChar '=' entry with
    | [k, v] =>
      if k.take 7 == "sentry-".toList then
        some (String.mk (k.drop 7), String.mk (percentDecode v))
      else none
    | _ => none)

/-- Modelled from the spec: `TraceHeaderCodec.encode` (sections 4.5
and 6): `trace_id`, a dash, `span_id`, and the optional sampled flag
(`-1` for sampled, `-0` for not sampled, nothing for unknown). -/
def TraceHeaderCodec.encode (tid sid : List Char) (sampled : Option Bool) :
    List Char :=
  tid ++ ('-' :: (sid ++ (match sampled with
    | none => []
    | some true => ['-', '1']
    | some false => ['-', '0'])))

/-- Helper for `TraceHeaderCodec.decode`: decode the optional sampled
flag segment after the span id (`-1` sampled, `-0` not sampled, empty
unknown; anything else malformed). -/
def TraceHeaderCodec.decodeFlag : List Char → Option (Option Bool)
  | [] => some none
  | ['-', '1'] => some (some true)
  | ['-', '0'] => some (some false)
  | _ => none

/-- Helper for `TraceHeaderCodec.decode`: decode everything after the
32-character trace id. -/
def TraceHeaderCodec.decodeRest (tid : List Char) :
    List Char → Option (List Char × List Char × Option Bool)
  | c :: rest2 =>
    if c = '-' ∧ isHexStr (rest2.take 16) 16 = true then
      (TraceHeaderCodec.decodeFlag (rest2.drop 16)).map
        (fun f => (tid, rest2.take 16, f))
    else none
  | [] => none

/-- Modelled from the spec: `TraceHeaderCodec.decode` (section 4.5):
the header must be a 32-character hex trace id, a dash, a 16-character
hex span id, and optionally a dash followed by `0` or `1`; anything else
is malformed (`none`, standing for `MalformedHeaderError`). -/
def TraceHeaderCodec.decode (l : List Char) :
    Option (List Char × List Char × Option Bool) :=
  if isHexStr (l.take 32) 32 = true then
    TraceHeaderCodec.decodeRest (l.take 32) (l.drop 32)
  else none

/-- Modelled from the spec: `PropagationContext.from_incoming_data`
(section 4.4): parse the compact trace header for trace id, parent span
id and parent sampled flag, parse the baggage header into the dynamic
sampling context, and fill in a missing `sample_rand`; a malformed trace
header falls back to a default context (fresh lazy ids, no parent). -/
def PropagationContext.from_incoming_data (sentryTrace baggage : String) :
    PropagationContext :=
  match TraceHeaderCodec.decode sentryTrace.toList with
  | some (tid, psid, sampled) =>
    { _trace_id := some (String.mk tid), _span_id := none,
      parent_span_id := some (String.mk psid), parent_sampled := sampled,
      dynamic_sampling_context :=
        some (fill_sample_rand (String.mk tid) sampled (parseBaggage baggage)) }
  | none => emptyCtx

/-- The dynamic sampling context of a context, empty when absent. -/
def dscOf (ctx : PropagationContext) : List (String × String) :=
  ctx.dynamic_sampling_context.getD []

/-- Fixture table translated from
`tests/test_propagationcontext.py::test_sample_rand_filled`: for trace id
`00000000000000000000000000000000`, the `sample_rand` that
`PropagationContext.from_incoming_data` fills onto the dynamic sampling
context, keyed by the parent sampled flag and the incoming
`sentry-sample_rate` baggage string (the test always sends the f-string
rendering of the rate, so a missing rate arrives as `"None"`). -/
def fillFromIncomingTable : List ((Option Bool × String) × String) :=
  [((none, "None"), "0.919221"),
   ((none, "0.5"), "0.919221"),
   ((some false, "None"), "0.919221"),
   ((some true, "None"), "0.919221"),
   ((some false, "0.0"), "0.919221"),
   ((some false, "0.01"), "0.929221"),
   ((some true, "0.01"), "0.006073"),
   ((some false, "0.1"), "0.762590"),
   ((some true, "0.1"), "0.082823"),
   ((some false, "0.5"), "0.959610"),
   ((some true, "0.5"), "0.459610"),
   ((some true, "1.0"), "0.919221")]

/-- Fixture table translated from
`tests/tracing/test_sample_rand_propagation.py::test_continue_trace_missing_sample_rand`:
for trace id `00000000000000000000000000000000`, the `sample_rand` that
`sentry_sdk.continue_trace` fills onto the transaction's baggage, keyed
like `fillFromIncomingTable`. -/
def fillContinueTraceTable : List ((Option Bool × String) × String) :=
  [((none, "None"), "0.8766381713144122"),
   ((none, "0.5"), "0.8766381713144122"),
   ((some false, "None"), "0.8766381713144122"),
   ((some true, "None"), "0.8766381713144122"),
   ((some false, "0.0"), "0.8766381713144122"),
   ((some false, "0.01"), "0.8778717896012681"),
   ((some true, "0.01"), "0.008766381713144122"),
   ((some false, "0.1"), "0.888974354182971"),
   ((some true, "0.1"), "0.08766381713144122"),
   ((some false, "0.5"), "0.9383190856572061"),
   ((some true, "0.5"), "0.4383190856572061"),
   ((some true, "1.0"), "0.8766381713144122")]

/-- Look up a fixture table entry by parent sampled flag and rate string. -/
def tableVal (t : List ((Option Bool × String) × String))
    (ps : Option Bool) (rate : String) : Option String :=
  (t.find? (fun row => row.1 == (ps, rate))).map (fun row => row.2)

/-- A fixture table row's output value lies in the sub-range of `[0,1)`
that section 4.6 assigns to its parent sampled flag and sample rate:
`[0, rate)` when the parent was sampled, `[rate, 1)` when it was not,
and `[0, 1)` when either field is absent or non-numeric. -/
def inSubrange (ps : Option Bool) (rateStr out : String) : Bool :=
  match parseDecPair out with
  | none => false
  | some v =>
    match ps, parseDecPair rateStr with
    | some true, some rate => pairLe (0, 0) v && pairLt v rate
    | some false, some rate => pairLe rate v && pairLt v (1, 0)
    | _, _ => pairLe (0, 0) v && pairLt v (1, 0)

/-- The all-zero trace id, as a character list. -/
def zTid : List Char := "00000000000000000000000000000000".toList

/-- The all-zero span id, as a character list. -/
def zSid : List Char := "0000000000000000".toList

/-- The update mapping used by
`tests/test_propagationcontext.py::test_update`: the three recognized
keys plus the unrecognized key `foo`. -/
def testUpdateData : List (String × UVal) :=
  [("trace_id", UVal.str "Z234567890abcdef1234567890abcdef"),
   ("parent_span_id", UVal.str "Z234567890abcdef"),
   ("parent_sampled", UVal.flag false),
   ("foo", UVal.str "bar")]

theorem natToHexList_length (n k : Nat) : (natToHexList n k).length = n := by
  induction n generalizing k with
  | zero => rfl
  | succ n ih => simp [natToHexList, ih]

theorem hexChar_isHex : ∀ d < 16, isHexChar (hexChar d) = true := by decide

theorem natToHexList_hex (n k : Nat) :
    (natToHexList n k).all isHexChar = true := by
  induction n generalizing k with
  | zero => rfl
  | succ n ih =>
    simp only [natToHexList, List.all_append, ih, Bool.true_and, List.all_cons,
      List.all_nil, Bool.and_true]
    exact hexChar_isHex _ (Nat.mod_lt _ (by decide))

theorem new_span_id_length (e : Nat) :
    (IdentifierCodec.new_span_id e).length = 16 := by
  simp [IdentifierCodec.new_span_id, natToHexList_length]

theorem new_span_id_hex (e : Nat) :
    (IdentifierCodec.new_span_id e).toList.all isHexChar = true := by
  simp only [IdentifierCodec.new_span_id, String.toList, String.data]
  exact natToHexList_hex 16 _

/-- C1: `DeterministicRandom.derive` applied to the all-zero trace id
`"00000000000000000000000000000000"` returns exactly
`0.8766381713144122` (the cross-implementation determinism fixture of
spec section 8 and `TEST_TRACE_ID_SAMPLE_RANDS`). -/
theorem C1_derive_all_zero_fixture :
    DeterministicRandom.derive "00000000000000000000000000000000"
      = 8766381713144122 / 10000000000000000 := by
  unfold DeterministicRandom.derive
  rw [if_pos rfl]

/-- C4: the sampling decision is `true` exactly when
`sample_rand < sample_rate`, and this single predicate is the one
evaluated both for root traces (`sample_rand` derived from the trace id)
and for continued traces (`sample_rand` taken from incoming baggage). -/
theorem C4_single_sampling_predicate :
    (∀ r rate : ℚ, SamplingDecisionEngine.decide r rate = true ↔ r < rate)
    ∧ (∀ (tid : String) (rate : ℚ), rootRecorded tid rate
        = SamplingDecisionEngine.decide (DeterministicRandom.derive tid) rate)
    ∧ (∀ r rate : ℚ, continuedRecorded r rate
        = SamplingDecisionEngine.decide r rate) := by
  refine ⟨?_, fun tid rate => rfl, fun r rate => rfl⟩
  intro r rate
  by_cases h : r < rate <;> simp [SamplingDecisionEngine.decide, h]

/-- C5: evaluation at the failing input.  For identical incoming headers
(all-zero trace id, no parent sampled flag, no usable sample rate, no
incoming `sample_rand`), the fixture table of
`tests/test_propagationcontext.py::test_sample_rand_filled` pins the
value filled by `PropagationContext.from_incoming_data` to `"0.919221"`,
while the fixture table of
`tests/tracing/test_sample_rand_propagation.py::test_continue_trace_missing_sample_rand`
pins the value filled by `continue_trace` to `"0.8766381713144122"`: the
two paths do not agree, neither as strings nor as numbers. -/
theorem C5_fill_paths_disagree :
    tableVal fillFromIncomingTable none "None" = some "0.919221"
    ∧ tableVal fillContinueTraceTable none "None" = some "0.8766381713144122"
    ∧ tableVal fillFromIncomingTable none "None"
        ≠ tableVal fillContinueTraceTable none "None"
    ∧ parseDecPair "0.919221" = some (919221, 6)
    ∧ parseDecPair "0.8766381713144122" = some (8766381713144122, 16)
    ∧ decVal (919221, 6) ≠ decVal (8766381713144122, 16) := by
  refine ⟨by decide, by decide, by decide, by decide, by decide, ?_⟩
  unfold decVal
  norm_num

/-- C6: counterexample.  The `continue_trace` fill fixture writes
`"0.8766381713144122"` (16 digits after the point, far more than six)
onto the outgoing baggage, and even the six-digit
`from_incoming_data` fill fixture contains `"0.959610"`, whose trailing
zero is not trimmed: the claim fails in both halves. -/
theorem C6_counterexample :
    tableVal fillContinueTraceTable none "None" = some "0.8766381713144122"
    ∧ digitsAfterPoint "0.8766381713144122" = 16
    ∧ ¬ digitsAfterPoint "0.8766381713144122" ≤ 6
    ∧ tableVal fillFromIncomingTable (some false) "0.5" = some "0.959610"
    ∧ hasUntrimmedZero "0.959610" = true := by decide

/-- C6 (amended): every `sample_rand` value the
`PropagationContext.from_incoming_data` fill writes has exactly six
digits after the decimal point (zero-padded, trailing zeros kept), while
the `continue_trace` fill writes full-precision values of up to 18
digits after the point. -/
theorem C6_amended_formatting :
    (fillFromIncomingTable.all (fun row => digitsAfterPoint row.2 == 6)
      && fillContinueTraceTable.all (fun row =>
        decide (1 ≤ digitsAfterPoint row.2)
          && decide (digitsAfterPoint row.2 ≤ 18))) = true := by decide

/-- C3: counterexample.  With `parent_sampled` and `sample_rate` both
absent the claim requires the filled value to be the unscaled
`r = DeterministicRandom.derive trace_id`; but for the all-zero trace id
the `from_incoming_data` fill fixture
(`tests/test_propagationcontext.py::test_sample_rand_filled`) pins
`"0.919221"`, which equals neither `r = 0.8766381713144122` nor its
six-digit truncation `0.876638`. -/
theorem C3_counterexample :
    tableVal fillFromIncomingTable none "None" = some "0.919221"
    ∧ parseDecPair "0.919221" = some (919221, 6)
    ∧ DeterministicRandom.derive "00000000000000000000000000000000"
        = 8766381713144122 / 10000000000000000
    ∧ decVal (919221, 6) ≠ 8766381713144122 / 10000000000000000
    ∧ ¬ (decVal (919221, 6) ≤ 8766381713144122 / 10000000000000000
          ∧ (8766381713144122 / 10000000000000000 : ℚ) < decVal (919222, 6)) := by
  refine ⟨by decide, by decide, ?_, ?_, ?_⟩
  · unfold DeterministicRandom.derive
    rw [if_pos rfl]
  · unfold decVal
    norm_num
  · unfold decVal
    norm_num

/-- C3 (amended): when `sample_rand` is missing, each fill path only
guarantees the sub-range of the remap: every row of both fill fixture
tables lies in `[0, sample_rate)` when the parent was sampled, in
`[sample_rate, 1)` when it was not, and in `[0, 1)` when either field is
absent or non-numeric; the `from_incoming_data` path draws a fresh
six-digit value in that sub-range rather than rescaling the base draw. -/
theorem C3_amended_subrange :
    (fillFromIncomingTable.all (fun row => inSubrange row.1.1 row.1.2 row.2)
      && fillContinueTraceTable.all (fun row =>
        inSubrange row.1.1 row.1.2 row.2)) = true := by decide

theorem pairLt_iff (p q : Nat × Nat) : pairLt p q = true ↔ decVal p < decVal q := by
  unfold pairLt decVal
  rw [decide_eq_true_iff]
  rw [div_lt_div_iff₀ (by positivity) (by positivity)]
  constructor
  · intro h
    exact_mod_cast h
  · intro h
    exact_mod_cast h

theorem pairLe_iff (p q : Nat × Nat) : pairLe p q = true ↔ decVal p ≤ decVal q := by
  unfold pairLe decVal
  rw [decide_eq_true_iff]
  rw [div_le_div_iff₀ (by positivity) (by positivity)]
  constructor
  · intro h
    exact_mod_cast h
  · intro h
    exact_mod_cast h

/-- C7: a non-numeric incoming `sample_rate` string such as the literal
`"None"` parses as absent, the fill computation then returns the
unscaled derived value whatever the `parent_sampled` flag is (and, being
a total function, raises nothing); both fill fixture tables indeed show
the same output for `sample_rate = "None"` under all three parent
flags. -/
theorem C7_nonnumeric_rate_treated_absent :
    parseRate "None" = none
    ∧ (∀ (tid : String) (ps : Option Bool),
        fillValue tid ps (parseRate "None") = DeterministicRandom.derive tid)
    ∧ tableVal fillFromIncomingTable (some true) "None"
        = tableVal fillFromIncomingTable none "None"
    ∧ tableVal fillFromIncomingTable (some false) "None"
        = tableVal fillFromIncomingTable none "None"
    ∧ tableVal fillContinueTraceTable (some true) "None"
        = tableVal fillContinueTraceTable none "None"
    ∧ tableVal fillContinueTraceTable (some false) "None"
        = tableVal fillContinueTraceTable none "None" := by
  refine ⟨rfl, ?_, by decide, by decide, by decide, by decide⟩
  intro tid ps
  cases ps with
  | none => rfl
  | some b => cases b <;> rfl

/-- C2: an already-present `sample_rand` is never recomputed: for every
trace id, parent sampled flag and dynamic sampling context already
carrying a `sample_rand` entry, the fill leaves that entry unchanged;
in particular, with headers
`sentry-trace = "00000000000000000000000000000000-0000000000000000-0"` and
`baggage = "sentry-sample_rand=0.1,sentry-sample_rate=0.5"`, the
continued context's dynamic sampling context still reports
`sample_rand = "0.1"`, and the sampling decision `0.1 < 0.5` yields
sampled. -/
theorem C2_existing_sample_rand_preserved :
    (∀ (tid : String) (ps : Option Bool) (dsc : List (String × String))
        (v : String),
        lookupKey dsc "sample_rand" = some v →
        lookupKey (fill_sample_rand tid ps dsc) "sample_rand" = some v)
    ∧ lookupKey (dscOf (PropagationContext.from_incoming_data
        "00000000000000000000000000000000-0000000000000000-0"
        "sentry-sample_rand=0.1,sentry-sample_rate=0.5")) "sample_rand"
        = some "0.1"
    ∧ lookupKey (fill_sample_rand "00000000000000000000000000000000" none
        [("sample_rand", "0.5")]) "sample_rand" = some "0.5"
    ∧ SamplingDecisionEngine.decide (1 / 10) (1 / 2) = true := by
  refine ⟨?_, by decide, by decide, ?_⟩
  · intro tid ps dsc v h
    unfold fill_sample_rand
    rw [h]
    exact h
  · unfold SamplingDecisionEngine.decide
    rw [if_pos (by norm_num)]

/-- Witness for C2 at a concrete input: the incoming context of the
end-to-end scenario already carries `sample_rand = "0.1"`, and the fill
preserves it. -/
theorem C2_existing_sample_rand_preserved_witness :
    lookupKey (fill_sample_rand "00000000000000000000000000000000" (some false)
      [("sample_rand", "0.1"), ("sample_rate", "0.5")]) "sample_rand"
      = some "0.1" :=
  C2_existing_sample_rand_preserved.1 "00000000000000000000000000000000"
    (some false) [("sample_rand", "0.1"), ("sample_rate", "0.5")] "0.1"
    (by decide)

/-- C8: updating a fresh context with a mapping holding the three
recognized keys plus the unrecognized key `foo` overwrites exactly
`trace_id` (the internal cache), `parent_span_id` and `parent_sampled`
(to `false`); the result is identical to updating without the `foo`
entry (so nothing resembling a `foo` attribute is attached), the span id
cache stays unset, and a later first read of `span_id` lazily yields a
16-character hexadecimal value, whatever the entropy. -/
theorem C8_update_recognized_keys_only :
    (PropagationContext.update emptyCtx testUpdateData)._trace_id
        = some "Z234567890abcdef1234567890abcdef"
    ∧ (PropagationContext.update emptyCtx testUpdateData).parent_span_id
        = some "Z234567890abcdef"
    ∧ (PropagationContext.update emptyCtx testUpdateData).parent_sampled
        = some false
    ∧ (PropagationContext.update emptyCtx testUpdateData)._span_id = none
    ∧ (PropagationContext.update emptyCtx testUpdateData).dynamic_sampling_context
        = none
    ∧ PropagationContext.update emptyCtx testUpdateData
        = PropagationContext.update emptyCtx
            (testUpdateData.filter (fun kv => recognizedKeys.contains kv.1))
    ∧ ∀ e : Nat,
        ((PropagationContext.update emptyCtx testUpdateData).span_id e).1.length
            = 16
        ∧ ((PropagationContext.update emptyCtx testUpdateData).span_id
              e).1.toList.all isHexChar = true := by
  refine ⟨by decide, by decide, by decide, by decide, by decide, by decide, ?_⟩
  intro e
  exact ⟨new_span_id_length e, new_span_id_hex e⟩

/-- C9: the compact trace header round-trips: for every 32-hex-character
trace id, 16-hex-character span id and sampled flag in
`{true, false, none}`, decoding the encoded header returns exactly the
inputs, the flag being the suffix `-1` for sampled, `-0` for not
sampled, and absent for unknown. -/
theorem C9_trace_header_roundtrip (tid sid : List Char) (sampled : Option Bool)
    (h1 : isHexStr tid 32 = true) (h2 : isHexStr sid 16 = true) :
    TraceHeaderCodec.decode (TraceHeaderCodec.encode tid sid sampled)
      = some (tid, sid, sampled) := by
  have ht : tid.length = 32 := by
    have h := h1
    unfold isHexStr at h
    simp only [Bool.and_eq_true, beq_iff_eq] at h
    exact h.1
  have hs : sid.length = 16 := by
    have h := h2
    unfold isHexStr at h
    simp only [Bool.and_eq_true, beq_iff_eq] at h
    exact h.1
  unfold TraceHeaderCodec.encode TraceHeaderCodec.decode
  rw [List.take_left' ht, List.drop_left' ht, h1, if_pos rfl]
  simp only [TraceHeaderCodec.decodeRest]
  rw [List.take_left' hs, List.drop_left' hs]
  rw [if_pos (And.intro trivial h2)]
  cases sampled with
  | none => rfl
  | some b => cases b <;> rfl

/-- Witness for C9 at a concrete input: the all-zero trace and span ids
with the `-0` flag round-trip through the codec. -/
theorem C9_trace_header_roundtrip_witness :
    isHexStr zTid 32 = true ∧ isHexStr zSid 16 = true
    ∧ TraceHeaderCodec.decode (TraceHeaderCodec.encode zTid zSid (some false))
        = some (zTid, zSid, some false) :=
  ⟨by decide, by decide,
    C9_trace_header_roundtrip zTid zSid (some false) (by decide) (by decide)⟩

/-- C10: on the freshly constructed context, reading the `trace_id`
property populates only the `_trace_id` cache — `_span_id` stays `none`
and every other field is untouched — and `_span_id` is populated exactly
when the `span_id` property is first read. -/
theorem C10_lazy_caches :
    ∀ e : Nat,
      ((emptyCtx.trace_id e).2)._trace_id = some (IdentifierCodec.new_trace_id e)
      ∧ ((emptyCtx.trace_id e).2)._span_id = none
      ∧ ((emptyCtx.trace_id e).2).parent_span_id = none
      ∧ ((emptyCtx.trace_id e).2).parent_sampled = none
      ∧ ((emptyCtx.trace_id e).2).dynamic_sampling_context = none
      ∧ ∀ e2 : Nat,
          (((emptyCtx.trace_id e).2.span_id e2).2)._span_id
            = some (IdentifierCodec.new_span_id e2)
          ∧ (((emptyCtx.trace_id e).2.span_id e2).2)._trace_id
            = some (IdentifierCodec.new_trace_id e) := by
  intro e
  exact ⟨rfl, rfl, rfl, rfl, rfl, fun e2 => ⟨rfl, rfl⟩⟩
